import Mathlib

/-!
Shallow embedding of the paginated user-aggregation read path
(`GET /api/users`, optimized variant) of the binar-wshop-13 repository,
together with the count query and the projection/enrichment step.

The embedding follows the SQL text of the optimized query (the `query`
and `countQuery` strings in the route handler) and the JavaScript
post-processing (`result.rows.map`, pagination metadata).  Relational
semantics used:

* a table is a `List` of rows, in table order;
* `LEFT JOIN t ON cond` on a one-to-many key is modelled by `leftJoinOpt`:
  the list of matching rows when non-empty, else a single `none` row;
* grouped aggregates (`GROUP BY user_id` with `COUNT ... FILTER`) joined
  back on the grouping key, followed by `COALESCE(_, 0)`, are modelled by
  counting the matching log rows directly (`0` when there are none, which
  is exactly what the `LEFT JOIN` + `COALESCE` produce);
* `COUNT(*) OVER (ORDER BY created_at DESC) - 1` uses PostgreSQL's default
  window frame (`RANGE UNBOUNDED PRECEDING`), which includes all *peer*
  rows of the current row, so it counts every row whose `created_at` is
  greater than **or equal to** the current row's, minus one;
* the `user_creation_rank` and `user_aggregates` CTEs are joined back on
  `u.id` / `user_id`; these joins are keyed by the grouping column, hence
  one row per key, and `project` recomputes their columns per user row
  instead of carrying a join arm — faithful exactly when `users.id` is
  duplicate-free, so theorems quantifying over arbitrary stores carry the
  primary-key `Nodup` hypothesis `(db.users.map UserRow.id).Nodup`
  wherever their conclusion depends on the shape of the joined row set;
* `ORDER BY u.created_at DESC` guarantees only sortedness by that single
  key; the deterministic function `sortedRows` is one compliant ordering,
  and the predicate `validQueryResult` characterises *every* compliant
  ordering (the SQL text fixes no order among ties);
* `CURRENT_TIMESTAMP - INTERVAL '30 days'` is abstracted as a `cutoff`
  parameter; timestamps are `Nat` (larger = later).

The JSON-navigation output fields (`instagram_handle`, `socialMedia`,
`preferences`, `skills`, `interests`) and the wall-clock field
`days_since_created`, as well as the page-local `summary` block, are not
needed by any verified property and are omitted from the record type.
-/

namespace BinarWshop

/-- A row of the `users` table.  `profile_json` is kept as an opaque
optional document: only its presence/absence is ever consumed by the
verified properties. -/
structure UserRow where
  id : Nat
  username : String
  full_name : String
  birth_date : Option String
  bio : Option String
  long_bio : Option String
  profile_json : Option String
  address : Option String
  phone_number : Option String
  created_at : Nat
  updated_at : Nat
  auth_id : Option Nat
deriving DecidableEq

/-- A row of the `auth` table. -/
structure AuthRow where
  id : Nat
  email : String
deriving DecidableEq

/-- A row of the `user_roles` table. -/
structure RoleRow where
  id : Nat
  user_id : Nat
  role : String
deriving DecidableEq

/-- A row of the `user_divisions` table. -/
structure DivisionRow where
  id : Nat
  user_id : Nat
  division_name : String
deriving DecidableEq

/-- A row of the `user_logs` table. -/
structure LogRow where
  id : Nat
  user_id : Nat
  action : String
  created_at : Nat
deriving DecidableEq

/-- The relational store read by the query. -/
structure DB where
  users : List UserRow
  auth : List AuthRow
  user_roles : List RoleRow
  user_divisions : List DivisionRow
  user_logs : List LogRow
deriving DecidableEq

/-- `const MAX_LIMIT = 200`. -/
def MAX_LIMIT : Nat := 200

/-- `const DEFAULT_LIMIT = 50`. -/
def DEFAULT_LIMIT : Nat := 50

/-- `Math.max(1, page)` applied to the parsed `page` parameter. -/
def clampPage (p : Int) : Nat := (max 1 p).toNat

/-- `Math.min(MAX_LIMIT, Math.max(1, limit))` applied to the parsed
`limit` parameter. -/
def clampLimit (l : Int) : Nat := (min (MAX_LIMIT : Int) (max 1 l)).toNat

/-- Log rows of one user: `user_logs ul ... GROUP BY ul.user_id` restricted
to the group of `uid`. -/
def logsFor (db : DB) (uid : Nat) : List LogRow :=
  db.user_logs.filter (fun l => l.user_id == uid)

/-- `COALESCE(ua.log_count, 0)`: `COUNT(*)` of the user's log group, `0`
when the group is absent. -/
def log_count (db : DB) (uid : Nat) : Nat := (logsFor db uid).length

/-- `COALESCE(ua.login_count, 0)`: `COUNT(*) FILTER (WHERE ul.action = 'login')`. -/
def login_count (db : DB) (uid : Nat) : Nat :=
  ((logsFor db uid).filter (fun l => l.action == "login")).length

/-- `COALESCE(ua.update_count, 0)`: `COUNT(*) FILTER (WHERE ul.action = 'update_profile')`. -/
def update_count (db : DB) (uid : Nat) : Nat :=
  ((logsFor db uid).filter (fun l => l.action == "update_profile")).length

/-- `COALESCE(ua.recent_logs, 0)`: `COUNT(*) FILTER (WHERE ul.created_at >
CURRENT_TIMESTAMP - INTERVAL '30 days')`, with the subtracted timestamp
abstracted as `cutoff`. -/
def recent_logs (db : DB) (cutoff : Nat) (uid : Nat) : Nat :=
  ((logsFor db uid).filter (fun l => cutoff < l.created_at)).length

/-- The `total_users_count` CTE: `SELECT COUNT(*) FROM users`. -/
def total_users (db : DB) : Nat := db.users.length

/-- The `user_creation_rank` CTE:
`COUNT(*) OVER (ORDER BY created_at DESC) - 1`.  With PostgreSQL's default
`RANGE` frame the window contains the current row and all rows ordered at
or before it *including peers*, i.e. every row with `created_at ≥` the
current row's; the rank is that count minus one. -/
def newer_users (db : DB) (u : UserRow) : Nat :=
  (db.users.filter (fun v => u.created_at ≤ v.created_at)).length - 1

/-- Semantics of a `LEFT JOIN` arm: the matching rows if any, else one
null row. -/
def leftJoinOpt {α : Type} (l : List α) : List (Option α) :=
  match l with
  | [] => [none]
  | xs => xs.map some

/-- Matches of `LEFT JOIN auth a ON u.auth_id = a.id` (no match when
`auth_id` is null). -/
def authFor (db : DB) (u : UserRow) : List AuthRow :=
  match u.auth_id with
  | none => []
  | some aid => db.auth.filter (fun a => a.id == aid)

/-- Matches of `LEFT JOIN user_roles ur ON u.id = ur.user_id`. -/
def rolesFor (db : DB) (uid : Nat) : List RoleRow :=
  db.user_roles.filter (fun r => r.user_id == uid)

/-- Matches of `LEFT JOIN user_divisions ud ON u.id = ud.user_id`. -/
def divsFor (db : DB) (uid : Nat) : List DivisionRow :=
  db.user_divisions.filter (fun d => d.user_id == uid)

/-- A row of the joined `FROM`/`LEFT JOIN` product, before the `WHERE`
filter.  Only the join-dependent columns are carried; the uniquely keyed
CTE columns are recomputed from `u` at projection time. -/
structure RawRow where
  u : UserRow
  email : Option String
  role : Option String
  division_name : Option String
deriving DecidableEq

/-- The joined row set of the main query:
`FROM users u LEFT JOIN auth a ... LEFT JOIN user_roles ur ...
LEFT JOIN user_divisions ud ...` (the aggregate/rank/total CTE joins are
keyed and are recomputed per row in `project`). -/
def joinedRows (db : DB) : List RawRow :=
  db.users.flatMap fun u =>
    (leftJoinOpt (authFor db u)).flatMap fun a =>
      (leftJoinOpt (rolesFor db u.id)).flatMap fun r =>
        (leftJoinOpt (divsFor db u.id)).map fun d =>
          { u := u
            email := a.map AuthRow.email
            role := r.map RoleRow.role
            division_name := d.map DivisionRow.division_name }

/-- The `WHERE` clause
`($1::text IS NULL OR $1 = 'all' OR ud.division_name = $1)`:
a null filter or the literal `'all'` matches everything; otherwise the
row's (possibly null) division name must equal the filter (`NULL = $1`
is not true). -/
def matchesFilter (filter : Option String) (division_name : Option String) : Bool :=
  match filter with
  | none => true
  | some f => f == "all" || division_name == some f

/-- The filtered row set of the main query (before `ORDER BY`/`LIMIT`). -/
def filteredRows (db : DB) (filter : Option String) : List RawRow :=
  (joinedRows db).filter (fun r => matchesFilter filter r.division_name)

/-- The comparison used by `ORDER BY u.created_at DESC`: `a` may come
before `b` iff `b.created_at ≤ a.created_at`. -/
def createdDesc (a b : RawRow) : Prop :=
  b.u.created_at ≤ a.u.created_at

instance : DecidableRel createdDesc := fun _ _ => Nat.decLe _ _

instance : IsTotal RawRow createdDesc :=
  ⟨fun a b => Nat.le_total b.u.created_at a.u.created_at⟩

instance : IsTrans RawRow createdDesc :=
  ⟨fun _ _ _ h1 h2 => Nat.le_trans h2 h1⟩

/-- One concrete ordering compliant with `ORDER BY u.created_at DESC`. -/
def sortedRows (db : DB) (filter : Option String) : List RawRow :=
  List.insertionSort createdDesc (filteredRows db filter)

/-- What the SQL `ORDER BY u.created_at DESC` (with no secondary key)
guarantees about the result list: it is some permutation of the filtered
rows that is sorted by `created_at` descending.  Any such list is a
legitimate result of the query. -/
def validQueryResult (db : DB) (filter : Option String) (l : List RawRow) : Prop :=
  l.Perm (filteredRows db filter) ∧ List.Sorted createdDesc l

/-- The row set of the `countQuery`:
`FROM users u LEFT JOIN user_divisions ud ON u.id = ud.user_id`, keeping
only the column the `WHERE` clause consumes. -/
def countRows (db : DB) : List (Option String) :=
  db.users.flatMap fun u =>
    (leftJoinOpt (divsFor db u.id)).map (fun d => d.map DivisionRow.division_name)

/-- `SELECT COUNT(*) ... WHERE ($1 IS NULL OR $1 = 'all' OR
ud.division_name = $1)` of the count query. -/
def totalCount (db : DB) (filter : Option String) : Nat :=
  ((countRows db).filter (fun dn => matchesFilter filter dn)).length

/-- `u.full_name || ' (' || COALESCE(ur.role, 'no role') || ')'`. -/
def display_name (full_name : String) (role : Option String) : String :=
  full_name ++ " (" ++ role.getD "no role" ++ ")"

/-- `COALESCE(NULLIF(u.bio, ''), 'No bio available')`: a null bio and an
empty-string bio both become the marker string. -/
def bio_display (bio : Option String) : String :=
  match bio with
  | none => "No bio available"
  | some b => if b == "" then "No bio available" else b

/-- The `profile_completeness` `CASE` expression over the four
`IS NOT NULL` tests (branches in source order: all four, then sum `= 3`,
`= 2`, `= 1`, else `0`). -/
def completenessScore (bio addr phone pj : Bool) : Nat :=
  if bio && addr && phone && pj then 100
  else if bio.toNat + addr.toNat + phone.toNat + pj.toNat == 3 then 75
  else if bio.toNat + addr.toNat + phone.toNat + pj.toNat == 2 then 50
  else if bio.toNat + addr.toNat + phone.toNat + pj.toNat == 1 then 25
  else 0

/-- `profile_completeness` of a user row. -/
def profile_completeness (u : UserRow) : Nat :=
  completenessScore u.bio.isSome u.address.isSome u.phone_number.isSome
    u.profile_json.isSome

/-- JavaScript string truthiness (`!!s`): false for null and for the
empty string. -/
def truthyStr (s : Option String) : Bool :=
  match s with
  | none => false
  | some v => v != ""

/-- One element of the `users` array of the response (the fields produced
by the SQL `SELECT` list and the `result.rows.map` projection that are in
the modelled scope). -/
structure Record where
  id : Nat
  username : String
  fullName : String
  email : Option String
  birthDate : Option String
  bio : Option String
  longBio : Option String
  profileJson : Option String
  address : Option String
  phoneNumber : Option String
  createdAt : Nat
  updatedAt : Nat
  role : Option String
  division : Option String
  displayName : String
  bioDisplay : String
  totalUsers : Nat
  newerUsers : Nat
  logCount : Nat
  roleCount : Nat
  divisionCount : Nat
  loginCount : Nat
  updateCount : Nat
  recentLogs : Nat
  isActive : Bool
  isSenior : Bool
  hasProfile : Bool
  hasBio : Bool
  hasAddress : Bool
  hasPhone : Bool
  profileCompleteness : Nat
deriving DecidableEq

/-- The `SELECT` list plus the JavaScript `result.rows.map` projection for
one joined row.  `role_count`/`division_count` are the literal constants
`1` of the SELECT list; the keyed CTE columns are recomputed from `r.u`. -/
def project (db : DB) (cutoff : Nat) (r : RawRow) : Record :=
  { id := r.u.id
    username := r.u.username
    fullName := r.u.full_name
    email := r.email
    birthDate := r.u.birth_date
    bio := r.u.bio
    longBio := r.u.long_bio
    profileJson := r.u.profile_json
    address := r.u.address
    phoneNumber := r.u.phone_number
    createdAt := r.u.created_at
    updatedAt := r.u.updated_at
    role := r.role
    division := r.division_name
    displayName := display_name r.u.full_name r.role
    bioDisplay := bio_display r.u.bio
    totalUsers := total_users db
    newerUsers := newer_users db r.u
    logCount := log_count db r.u.id
    roleCount := 1
    divisionCount := 1
    loginCount := login_count db r.u.id
    updateCount := update_count db r.u.id
    recentLogs := recent_logs db cutoff r.u.id
    isActive := decide (5 < log_count db r.u.id)
    isSenior := r.role == some "admin" || r.role == some "moderator"
    hasProfile := r.u.profile_json.isSome
    hasBio := truthyStr r.u.bio
    hasAddress := truthyStr r.u.address
    hasPhone := truthyStr r.u.phone_number
    profileCompleteness := profile_completeness r.u }

/-- `Math.ceil(a / b)` for natural inputs with `b > 0`. -/
def ceilDiv (a b : Nat) : Nat := (a + b - 1) / b

/-- The `pagination` block of the response. -/
structure Pagination where
  page : Nat
  limit : Nat
  totalPages : Nat
  totalCount : Nat
  hasNextPage : Bool
  hasPreviousPage : Bool
deriving DecidableEq

/-- The response body (within the modelled scope). -/
structure Response where
  users : List Record
  pagination : Pagination
  filteredBy : String
deriving DecidableEq

/-- `LIMIT $2 OFFSET $3` applied to the sorted filtered rows, with
`offset = (page - 1) * limit` (clamped values). -/
def pageRows (db : DB) (filter : Option String) (page limit : Nat) : List RawRow :=
  ((sortedRows db filter).drop ((page - 1) * limit)).take limit

/-- The whole `GET` handler on parsed integer parameters: clamp `page`
and `limit`, run the page query and the count query, project the rows and
assemble the pagination metadata
(`totalPages = Math.ceil(totalCount / limit)`,
`hasNextPage = page < totalPages`, `hasPreviousPage = page > 1`,
`filteredBy = divisionFilter || "all"`, where `||` treats the empty
string as falsy).  A total function: no input is rejected. -/
def GET (db : DB) (cutoff : Nat) (filter : Option String) (pageIn limitIn : Int) :
    Response :=
  let page := clampPage pageIn
  let limit := clampLimit limitIn
  let tc := totalCount db filter
  let tp := ceilDiv tc limit
  { users := (pageRows db filter page limit).map (project db cutoff)
    pagination :=
      { page := page
        limit := limit
        totalPages := tp
        totalCount := tc
        hasNextPage := decide (page < tp)
        hasPreviousPage := decide (1 < page) }
    filteredBy :=
      match filter with
      | none => "all"
      | some f => if f == "" then "all" else f }

/-- Specification-side count: the number of profiles strictly newer than
`u` (what the pre-optimization query
`SELECT COUNT(*) FROM users WHERE created_at > u.created_at` computed). -/
def strictlyNewerCount (db : DB) (u : UserRow) : Nat :=
  (db.users.filter (fun v => u.created_at < v.created_at)).length

/-- Specification-side presence count: how many of the four fields
{bio, address, phone, structured profile document} are non-null. -/
def presentCount (u : UserRow) : Nat :=
  u.bio.isSome.toNat + u.address.isSome.toNat + u.phone_number.isSome.toNat +
    u.profile_json.isSome.toNat

/-- The (at most one) division name of a profile, as the count query sees
it when the at-most-one-division invariant holds. -/
def divisionOf (db : DB) (u : UserRow) : Option String :=
  ((divsFor db u.id).head?).map DivisionRow.division_name

/-- Whether a profile matches the division filter (through its at most
one division). -/
def userMatches (db : DB) (filter : Option String) (u : UserRow) : Bool :=
  matchesFilter filter (divisionOf db u)

/-- The single joined row a profile contributes when every `LEFT JOIN` arm
has at most one match. -/
def rowOf (db : DB) (u : UserRow) : RawRow :=
  { u := u
    email := ((authFor db u).head?).map AuthRow.email
    role := ((rolesFor db u.id).head?).map RoleRow.role
    division_name := ((divsFor db u.id).head?).map DivisionRow.division_name }

/-- A minimal profile row used in concrete test stores. -/
def mkUser (i t : Nat) : UserRow :=
  { id := i
    username := "u"
    full_name := "User"
    birth_date := none
    bio := none
    long_bio := none
    profile_json := none
    address := none
    phone_number := none
    created_at := t
    updated_at := t
    auth_id := none }

/-- A store violating the at-most-one-division invariant: one profile,
two `user_divisions` rows. -/
def dbDup : DB :=
  { users := [mkUser 1 10]
    auth := []
    user_roles := []
    user_divisions := [⟨1, 1, "eng"⟩, ⟨2, 1, "ops"⟩]
    user_logs := [] }

/-- The joined row of `dbDup`'s profile through its first division. -/
def rowDupEng : RawRow :=
  { u := mkUser 1 10, email := none, role := none, division_name := some "eng" }

/-- A store with two profiles sharing the same creation timestamp. -/
def dbTies : DB :=
  { users := [mkUser 1 5, mkUser 2 5]
    auth := []
    user_roles := []
    user_divisions := []
    user_logs := [] }

/-- The joined row of `dbTies`'s first profile. -/
def rowTie1 : RawRow :=
  { u := mkUser 1 5, email := none, role := none, division_name := none }

/-- The joined row of `dbTies`'s second profile. -/
def rowTie2 : RawRow :=
  { u := mkUser 2 5, email := none, role := none, division_name := none }

/-- A well-formed store: three profiles with distinct creation times, one
division assignment for the first profile. -/
def dbThree : DB :=
  { users := [mkUser 1 10, mkUser 2 20, mkUser 3 30]
    auth := []
    user_roles := []
    user_divisions := [⟨1, 1, "eng"⟩]
    user_logs := [] }

/-- The joined row of `dbThree`'s first profile. -/
def rowThree1 : RawRow :=
  { u := mkUser 1 10, email := none, role := none, division_name := some "eng" }

/-- The joined row of `dbThree`'s second profile. -/
def rowThree2 : RawRow :=
  { u := mkUser 2 20, email := none, role := none, division_name := none }

/-- The joined row of `dbThree`'s third profile. -/
def rowThree3 : RawRow :=
  { u := mkUser 3 30, email := none, role := none, division_name := none }

/-- A profile with exactly bio and address set. -/
def uBioAddr : UserRow :=
  { mkUser 7 1 with bio := some "hi", address := some "addr" }

/-! ## Shared lemmas about the embedding -/

theorem leftJoinOpt_of_len_le_one {α : Type} {l : List α} (h : l.length ≤ 1) :
    leftJoinOpt l = [l.head?] := by
  cases l with
  | nil => rfl
  | cons x xs =>
    cases xs with
    | nil => rfl
    | cons y ys => simp at h

theorem head?_mem_leftJoinOpt {α : Type} (l : List α) : l.head? ∈ leftJoinOpt l := by
  cases l with
  | nil => simp [leftJoinOpt]
  | cons x xs => simp [leftJoinOpt]

theorem mem_leftJoinOpt {α : Type} {l : List α} {x : Option α} (h : x ∈ leftJoinOpt l) :
    x = none ∨ ∃ a ∈ l, x = some a := by
  cases l with
  | nil =>
    simp [leftJoinOpt] at h
    exact Or.inl h
  | cons y ys =>
    right
    simp only [leftJoinOpt, List.mem_map] at h
    obtain ⟨a, ha, rfl⟩ := h
    exact ⟨a, ha, rfl⟩

theorem flatMap_singleton_eq_map {α β : Type} (f : α → β) (l : List α) :
    (l.flatMap fun a => [f a]) = l.map f := by
  induction l with
  | nil => rfl
  | cons a t ih => simp [List.flatMap_cons, ih]

/-- A `Nodup` key list bounds the size of every key-equality filter by
one: "at most one satellite row per profile". -/
theorem filter_key_length_le_one {α : Type} (key : α → Nat) (l : List α)
    (h : (l.map key).Nodup) (v : Nat) :
    (l.filter (fun x => key x == v)).length ≤ 1 := by
  rw [← List.countP_eq_length_filter]
  have hc : List.countP (fun x => key x == v) l = List.count v (l.map key) := by
    rw [List.count, List.countP_map]
    rfl
  rw [hc]
  exact List.nodup_iff_count_le_one.1 h v

theorem authFor_len_le_one (db : DB) (hau : (db.auth.map AuthRow.id).Nodup)
    (u : UserRow) : (authFor db u).length ≤ 1 := by
  cases hu : u.auth_id with
  | none => simp [authFor, hu]
  | some aid =>
    simpa [authFor, hu] using filter_key_length_le_one AuthRow.id db.auth hau aid

theorem rolesFor_len_le_one (db : DB) (hro : (db.user_roles.map RoleRow.user_id).Nodup)
    (i : Nat) : (rolesFor db i).length ≤ 1 :=
  filter_key_length_le_one RoleRow.user_id db.user_roles hro i

theorem divsFor_len_le_one (db : DB) (hdv : (db.user_divisions.map DivisionRow.user_id).Nodup)
    (i : Nat) : (divsFor db i).length ≤ 1 :=
  filter_key_length_le_one DivisionRow.user_id db.user_divisions hdv i

/-- Under the at-most-one invariants every profile contributes exactly
one joined row, namely `rowOf`. -/
theorem joinedRows_eq_map (db : DB)
    (hau : (db.auth.map AuthRow.id).Nodup)
    (hro : (db.user_roles.map RoleRow.user_id).Nodup)
    (hdv : (db.user_divisions.map DivisionRow.user_id).Nodup) :
    joinedRows db = db.users.map (rowOf db) := by
  have h : ∀ u : UserRow,
      ((leftJoinOpt (authFor db u)).flatMap fun a =>
        (leftJoinOpt (rolesFor db u.id)).flatMap fun r =>
          (leftJoinOpt (divsFor db u.id)).map fun d =>
            ({ u := u
               email := a.map AuthRow.email
               role := r.map RoleRow.role
               division_name := d.map DivisionRow.division_name } : RawRow))
        = [rowOf db u] := by
    intro u
    rw [leftJoinOpt_of_len_le_one (authFor_len_le_one db hau u),
      leftJoinOpt_of_len_le_one (rolesFor_len_le_one db hro u.id),
      leftJoinOpt_of_len_le_one (divsFor_len_le_one db hdv u.id)]
    rfl
  unfold joinedRows
  rw [← flatMap_singleton_eq_map (rowOf db) db.users]
  simp only [h]

theorem filteredRows_eq_map (db : DB) (f : Option String)
    (hau : (db.auth.map AuthRow.id).Nodup)
    (hro : (db.user_roles.map RoleRow.user_id).Nodup)
    (hdv : (db.user_divisions.map DivisionRow.user_id).Nodup) :
    filteredRows db f = (db.users.filter (userMatches db f)).map (rowOf db) := by
  unfold filteredRows
  rw [joinedRows_eq_map db hau hro hdv, List.filter_map]
  rfl

theorem totalCount_eq_matching (db : DB) (f : Option String)
    (hdv : (db.user_divisions.map DivisionRow.user_id).Nodup) :
    totalCount db f = (db.users.filter (userMatches db f)).length := by
  unfold totalCount countRows
  have h : ∀ u : UserRow,
      (leftJoinOpt (divsFor db u.id)).map (fun d => d.map DivisionRow.division_name)
        = [divisionOf db u] := by
    intro u
    rw [leftJoinOpt_of_len_le_one (divsFor_len_le_one db hdv u.id)]
    rfl
  simp only [h]
  rw [flatMap_singleton_eq_map (divisionOf db) db.users, List.filter_map,
    List.length_map]
  rfl

theorem sortedRows_perm (db : DB) (f : Option String) :
    (sortedRows db f).Perm (filteredRows db f) :=
  List.perm_insertionSort _ _

theorem sortedRows_sorted (db : DB) (f : Option String) :
    List.Sorted createdDesc (sortedRows db f) :=
  List.sorted_insertionSort _ _

theorem sortedRows_valid (db : DB) (f : Option String) :
    validQueryResult db f (sortedRows db f) :=
  ⟨sortedRows_perm db f, sortedRows_sorted db f⟩

theorem one_le_clampLimit (l : Int) : 1 ≤ clampLimit l := by
  unfold clampLimit MAX_LIMIT
  have h1 : (1 : Int) ≤ max 1 l := le_max_left _ _
  have h2 : (1 : Int) ≤ min 200 (max 1 l) := le_min (by omega) h1
  omega

theorem clampLimit_le (l : Int) : clampLimit l ≤ MAX_LIMIT := by
  unfold clampLimit MAX_LIMIT
  have h2 : min 200 (max 1 l) ≤ (200 : Int) := min_le_left _ _
  omega

theorem one_le_clampPage (p : Int) : 1 ≤ clampPage p := by
  unfold clampPage
  have h1 : (1 : Int) ≤ max 1 p := le_max_left _ _
  omega

theorem clampPage_of_pos {i : Nat} : clampPage ((i : Int) + 1) = i + 1 := by
  unfold clampPage
  have h1 : max 1 ((i : Int) + 1) = (i : Int) + 1 :=
    max_eq_right (by omega)
  rw [h1]
  omega

/-- `ceilDiv` really is the ceiling of the division (for a positive
denominator): `n ≤ ceilDiv n k * k < n + k`. -/
theorem ceilDiv_spec (n k : Nat) (hk : 0 < k) :
    n ≤ ceilDiv n k * k ∧ ceilDiv n k * k < n + k := by
  have hdm := Nat.div_add_mod (n + k - 1) k
  have hmod : (n + k - 1) % k < k := Nat.mod_lt _ hk
  unfold ceilDiv
  generalize hq : (n + k - 1) / k = q at hdm
  generalize hr : (n + k - 1) % k = r at hdm hmod
  have hqk : q * k = k * q := Nat.mul_comm _ _
  rw [hqk]
  generalize hK : k * q = K at hdm
  omega

theorem ceilDiv_pos_step (n k : Nat) (hk : 0 < k) (hn : 0 < n) :
    ceilDiv n k = ceilDiv (n - k) k + 1 := by
  unfold ceilDiv
  rcases Nat.le_total n k with h | h
  · have h0 : n - k = 0 := Nat.sub_eq_zero_of_le h
    rw [h0]
    have e1 : (0 + k - 1) / k = 0 := Nat.div_eq_of_lt (by omega)
    rw [e1]
    exact Nat.div_eq_of_lt_le (by omega) (by omega)
  · have e : n + k - 1 = ((n - k) + k - 1) + k := by omega
    rw [e, Nat.add_div_right _ hk]

/-- Concatenating the `ceilDiv n k` windows of size `k` reconstitutes the
whole list. -/
theorem flatMap_range_chunks {α : Type} (k : Nat) (hk : 0 < k) :
    ∀ (n : Nat) (l : List α), l.length = n →
      ((List.range (ceilDiv n k)).flatMap fun i => (l.drop (i * k)).take k) = l := by
  intro n
  induction n using Nat.strong_induction_on with
  | _ n ih =>
    intro l hlen
    rcases Nat.eq_zero_or_pos n with hn | hn
    · subst hn
      have hnil : l = [] := List.eq_nil_of_length_eq_zero hlen
      subst hnil
      have e0 : ceilDiv 0 k = 0 := by
        unfold ceilDiv
        exact Nat.div_eq_of_lt (by omega)
      rw [e0]
      rfl
    · rw [ceilDiv_pos_step n k hk hn, List.range_succ_eq_map, List.flatMap_cons,
        List.flatMap_map]
      have htail :
          ((List.range (ceilDiv (n - k) k)).flatMap fun i =>
            (l.drop (Nat.succ i * k)).take k)
            = l.drop k := by
        have hrw : ∀ i : Nat, (l.drop (Nat.succ i * k)).take k
            = ((l.drop k).drop (i * k)).take k := by
          intro i
          rw [List.drop_drop]
          have : k + i * k = Nat.succ i * k := by
            rw [Nat.succ_mul]
            omega
          rw [this]
        simp only [hrw]
        exact ih (n - k) (by omega) (l.drop k) (by rw [List.length_drop, hlen])
      rw [htail]
      simp

/-- Two sorted-descending permutations of each other with duplicate-free
keys coincide. -/
theorem eq_of_perm_sorted_nodup_keys {α : Type} (key : α → Nat) :
    ∀ (l1 l2 : List α), l1.Perm l2 →
      List.Sorted (fun a b => key b ≤ key a) l1 →
      List.Sorted (fun a b => key b ≤ key a) l2 →
      (l1.map key).Nodup → l1 = l2 := by
  intro l1
  induction l1 with
  | nil =>
    intro l2 hp _ _ _
    exact (hp.symm.eq_nil).symm
  | cons a t ih =>
    intro l2 hp hs1 hs2 hnd
    cases l2 with
    | nil => exact absurd hp.eq_nil (List.cons_ne_nil a t)
    | cons b t2 =>
      have hmem_a : a ∈ b :: t2 := hp.subset (List.mem_cons_self a t)
      have hmem_b : b ∈ a :: t := hp.symm.subset (List.mem_cons_self b t2)
      have hs1' := List.sorted_cons.1 hs1
      have hs2' := List.sorted_cons.1 hs2
      have hnd' : key a ∉ t.map key ∧ (t.map key).Nodup := by
        rw [List.map_cons, List.nodup_cons] at hnd
        exact hnd
      have hab : a = b := by
        rcases List.mem_cons.1 hmem_a with h | hat2
        · exact h
        · rcases List.mem_cons.1 hmem_b with h | hbt
          · exact h.symm
          · have h1 : key a ≤ key b := hs2'.1 a hat2
            have h2 : key b ≤ key a := hs1'.1 b hbt
            have hkeq : key a = key b := Nat.le_antisymm h1 h2
            exfalso
            exact hnd'.1 (hkeq ▸ List.mem_map_of_mem key hbt)
      subst hab
      have hpt : t.Perm t2 := hp.cons_inv
      rw [ih t2 hpt hs1'.2 hs2'.2 hnd'.2]

theorem completenessScore_eq_mul (b1 b2 b3 b4 : Bool) :
    completenessScore b1 b2 b3 b4 = 25 * (b1.toNat + b2.toNat + b3.toNat + b4.toNat) := by
  revert b1 b2 b3 b4
  decide

/-! ## Claim theorems -/

/-- C5: a `limit` outside `[1, MAX_LIMIT]` is clamped into that range and
a `page < 1` is clamped to `1`; in-range values pass through unchanged;
the request is never rejected (`GET` is a total function) and the page
window used is `offset = (page - 1) * limit` computed from the clamped
values. -/
theorem C5_pagination_clamping (db : DB) (cutoff : Nat) (f : Option String)
    (pageIn limitIn : Int) :
    1 ≤ clampLimit limitIn ∧ clampLimit limitIn ≤ MAX_LIMIT ∧
    1 ≤ clampPage pageIn ∧
    (pageIn < 1 → clampPage pageIn = 1) ∧
    (1 ≤ limitIn → limitIn ≤ (MAX_LIMIT : Int) → clampLimit limitIn = limitIn.toNat) ∧
    (1 ≤ pageIn → clampPage pageIn = pageIn.toNat) ∧
    (GET db cutoff f pageIn limitIn).users =
      (((sortedRows db f).drop ((clampPage pageIn - 1) * clampLimit limitIn)).take
        (clampLimit limitIn)).map (project db cutoff) := by
  refine ⟨one_le_clampLimit limitIn, clampLimit_le limitIn, one_le_clampPage pageIn,
    ?_, ?_, ?_, rfl⟩
  · intro h
    unfold clampPage
    rw [max_eq_left (by omega)]
    rfl
  · intro h1 h2
    unfold clampLimit
    unfold MAX_LIMIT at h2 ⊢
    rw [max_eq_right h1, min_eq_right h2]
  · intro h
    unfold clampPage
    rw [max_eq_right h]

/-- C5 witness: concrete out-of-range and in-range parameters. -/
theorem C5_witness :
    clampPage (-5) = 1 ∧ clampLimit 1000 ≤ MAX_LIMIT ∧ clampPage 3 = (3 : Int).toNat := by
  refine ⟨(C5_pagination_clamping dbThree 0 none (-5) 1000).2.2.2.1 (by decide),
    (C5_pagination_clamping dbThree 0 none (-5) 1000).2.1,
    (C5_pagination_clamping dbThree 0 none 3 50).2.2.2.2.2.1 (by decide)⟩

/-- C6: a filter value (other than the literal `"all"`) that matches no
division row yields an empty user list, `totalCount = 0`,
`totalPages = 0` and `hasNextPage = false`, with no fault (the modelled
handler is total). -/
theorem C6_unknown_filter_empty (db : DB) (cutoff : Nat) (f : String)
    (pageIn limitIn : Int)
    (hall : f ≠ "all")
    (hnone : ∀ d ∈ db.user_divisions, d.division_name ≠ f) :
    (GET db cutoff (some f) pageIn limitIn).users = [] ∧
    (GET db cutoff (some f) pageIn limitIn).pagination.totalCount = 0 ∧
    (GET db cutoff (some f) pageIn limitIn).pagination.totalPages = 0 ∧
    (GET db cutoff (some f) pageIn limitIn).pagination.hasNextPage = false := by
  have hmf : ∀ dn : Option String,
      (dn = none ∨ ∃ d ∈ db.user_divisions, dn = some d.division_name) →
      matchesFilter (some f) dn = false := by
    intro dn h
    rcases h with rfl | ⟨d, hd, rfl⟩
    · simp [matchesFilter, hall]
    · simp [matchesFilter, hall, hnone d hd]
  have hcr : (countRows db).filter (fun dn => matchesFilter (some f) dn) = [] := by
    rw [List.filter_eq_nil_iff]
    intro dn hdn
    have hcases : dn = none ∨ ∃ d ∈ db.user_divisions, dn = some d.division_name := by
      unfold countRows at hdn
      obtain ⟨u, _, hmem⟩ := List.mem_flatMap.1 hdn
      obtain ⟨d0, hd0, rfl⟩ := List.mem_map.1 hmem
      rcases mem_leftJoinOpt hd0 with rfl | ⟨d, hd, rfl⟩
      · exact Or.inl rfl
      · exact Or.inr ⟨d, List.mem_of_mem_filter hd, rfl⟩
    simp [hmf dn hcases]
  have hfr : filteredRows db (some f) = [] := by
    unfold filteredRows
    rw [List.filter_eq_nil_iff]
    intro r hr
    have hcases : r.division_name = none ∨
        ∃ d ∈ db.user_divisions, r.division_name = some d.division_name := by
      unfold joinedRows at hr
      obtain ⟨u, _, hmem⟩ := List.mem_flatMap.1 hr
      obtain ⟨a, _, hmem2⟩ := List.mem_flatMap.1 hmem
      obtain ⟨ro, _, hmem3⟩ := List.mem_flatMap.1 hmem2
      obtain ⟨d0, hd0, rfl⟩ := List.mem_map.1 hmem3
      rcases mem_leftJoinOpt hd0 with rfl | ⟨d, hd, rfl⟩
      · exact Or.inl rfl
      · exact Or.inr ⟨d, List.mem_of_mem_filter hd, rfl⟩
    simp [hmf r.division_name hcases]
  have htc : totalCount db (some f) = 0 := by
    unfold totalCount
    rw [hcr]
    rfl
  have htp : ceilDiv (totalCount db (some f)) (clampLimit limitIn) = 0 := by
    rw [htc]
    unfold ceilDiv
    exact Nat.div_eq_of_lt (by have := one_le_clampLimit limitIn; omega)
  refine ⟨?_, htc, htp, ?_⟩
  · show ((pageRows db (some f) (clampPage pageIn) (clampLimit limitIn)).map
      (project db cutoff)) = []
    unfold pageRows sortedRows
    rw [hfr]
    simp [List.insertionSort]
  · show decide (clampPage pageIn <
      ceilDiv (totalCount db (some f)) (clampLimit limitIn)) = false
    rw [htp]
    simp

/-- C6 witness: the filter `"marketing"` matches no division of
`dbThree`. -/
theorem C6_witness :
    (GET dbThree 0 (some "marketing") 1 50).users = [] ∧
    (GET dbThree 0 (some "marketing") 1 50).pagination.totalCount = 0 ∧
    (GET dbThree 0 (some "marketing") 1 50).pagination.totalPages = 0 ∧
    (GET dbThree 0 (some "marketing") 1 50).pagination.hasNextPage = false :=
  C6_unknown_filter_empty dbThree 0 "marketing" 1 50 (by decide) (by decide)

/-- C7: `profile_completeness` is exactly the discrete step function of
the number of present fields among {bio, address, phone, structured
profile document} (`25` points per present field, so `0/25/50/75/100`);
in particular exactly {bio, address} present yields `50`. -/
theorem C7_completeness_step (u : UserRow) :
    profile_completeness u = 25 * presentCount u ∧
    (u.bio.isSome = true → u.address.isSome = true → u.phone_number = none →
      u.profile_json = none → profile_completeness u = 50) := by
  have hmain : profile_completeness u = 25 * presentCount u := by
    have h := completenessScore_eq_mul u.bio.isSome u.address.isSome
      u.phone_number.isSome u.profile_json.isSome
    simpa [profile_completeness, presentCount] using h
  refine ⟨hmain, ?_⟩
  intro h1 h2 h3 h4
  rw [hmain]
  unfold presentCount
  rw [h1, h2, h3, h4]
  rfl

/-- C7 witness: a profile with exactly bio and address set scores 50. -/
theorem C7_witness : profile_completeness uBioAddr = 50 :=
  (C7_completeness_step uBioAddr).2 rfl rfl rfl rfl

/-- C8: every returned record's `displayName` is the full name followed by
the role in parentheses with the literal `"no role"` default, and a null
bio and an empty-string bio both yield `bioDisplay = "No bio available"`. -/
theorem C8_display_defaults (db : DB) (cutoff : Nat) (f : Option String)
    (pageIn limitIn : Int) :
    ∀ rec ∈ (GET db cutoff f pageIn limitIn).users,
      rec.displayName = rec.fullName ++ " (" ++ rec.role.getD "no role" ++ ")" ∧
      ((rec.bio = none ∨ rec.bio = some "") → rec.bioDisplay = "No bio available") ∧
      (∀ b : String, rec.bio = some b → b ≠ "" → rec.bioDisplay = b) := by
  intro rec hrec
  have hrec' : rec ∈ (pageRows db f (clampPage pageIn) (clampLimit limitIn)).map
      (project db cutoff) := hrec
  obtain ⟨r, _, rfl⟩ := List.mem_map.1 hrec'
  refine ⟨rfl, ?_, ?_⟩
  · intro h
    show bio_display r.u.bio = "No bio available"
    rcases h with h | h
    · have hh : r.u.bio = none := h
      rw [hh]
      rfl
    · have hh : r.u.bio = some "" := h
      rw [hh]
      rfl
  · intro b hb hne
    show bio_display r.u.bio = b
    have hh : r.u.bio = some b := hb
    rw [hh]
    simp [bio_display, hne]

/-- C8 witness: a role-less, bio-less profile of `dbThree`. -/
theorem C8_witness :
    (project dbThree 0 rowThree3).displayName = "User (no role)" ∧
    (project dbThree 0 rowThree3).bioDisplay = "No bio available" := by
  have h := C8_display_defaults dbThree 0 none 1 50 (project dbThree 0 rowThree3)
    (by decide)
  exact ⟨by rw [h.1]; decide, h.2.1 (Or.inl rfl)⟩

/-- C9: the pagination metadata satisfies
`totalPages = ceil(totalCount / limit)` (stated both as `ceilDiv` and as
the characterizing inequalities of the ceiling),
`hasNextPage ↔ page < totalPages`, `hasPreviousPage ↔ page > 1`, and
`totalCount` comes from the separate count query, so it is invariant
under the page, limit and timestamp parameters. -/
theorem C9_pagination_metadata (db : DB) (cutoff : Nat) (f : Option String)
    (pageIn limitIn : Int) :
    (GET db cutoff f pageIn limitIn).pagination.totalPages =
      ceilDiv (GET db cutoff f pageIn limitIn).pagination.totalCount
        (GET db cutoff f pageIn limitIn).pagination.limit ∧
    (GET db cutoff f pageIn limitIn).pagination.totalCount ≤
      (GET db cutoff f pageIn limitIn).pagination.totalPages *
        (GET db cutoff f pageIn limitIn).pagination.limit ∧
    (GET db cutoff f pageIn limitIn).pagination.totalPages *
        (GET db cutoff f pageIn limitIn).pagination.limit <
      (GET db cutoff f pageIn limitIn).pagination.totalCount +
        (GET db cutoff f pageIn limitIn).pagination.limit ∧
    ((GET db cutoff f pageIn limitIn).pagination.hasNextPage = true ↔
      (GET db cutoff f pageIn limitIn).pagination.page <
        (GET db cutoff f pageIn limitIn).pagination.totalPages) ∧
    ((GET db cutoff f pageIn limitIn).pagination.hasPreviousPage = true ↔
      1 < (GET db cutoff f pageIn limitIn).pagination.page) ∧
    ∀ (cutoff2 : Nat) (pageIn2 limitIn2 : Int),
      (GET db cutoff2 f pageIn2 limitIn2).pagination.totalCount =
        (GET db cutoff f pageIn limitIn).pagination.totalCount := by
  have hspec := ceilDiv_spec (totalCount db f) (clampLimit limitIn)
    (one_le_clampLimit limitIn)
  exact ⟨rfl, hspec.1, hspec.2, by simp [GET], by simp [GET], fun _ _ _ => rfl⟩

/-- C10: every returned record carries the literal constants
`roleCount = 1` and `divisionCount = 1`, whatever the actual number of
role/division rows of the profile. -/
theorem C10_constant_counts (db : DB) (cutoff : Nat) (f : Option String)
    (pageIn limitIn : Int) :
    ∀ rec ∈ (GET db cutoff f pageIn limitIn).users,
      rec.roleCount = 1 ∧ rec.divisionCount = 1 := by
  intro rec hrec
  have hrec' : rec ∈ (pageRows db f (clampPage pageIn) (clampLimit limitIn)).map
      (project db cutoff) := hrec
  obtain ⟨r, _, rfl⟩ := List.mem_map.1 hrec'
  exact ⟨rfl, rfl⟩

/-- C10 witness: the profile of `dbDup` has two division rows and zero
role rows, yet its record reports both counts as `1`. -/
theorem C10_witness :
    (project dbDup 0 rowDupEng).roleCount = 1 ∧
    (project dbDup 0 rowDupEng).divisionCount = 1 :=
  C10_constant_counts dbDup 0 none 1 50 (project dbDup 0 rowDupEng) (by decide)

/-- C3: a profile with zero activity-log rows is not dropped by the
aggregate join (every filter-matching profile contributes a row to the
ordered result set), and all four per-profile aggregate fields of a
zero-log record equal `0`. -/
theorem C3_zero_log_profiles (db : DB) (cutoff : Nat) (f : Option String)
    (pageIn limitIn : Int) :
    (∀ rec ∈ (GET db cutoff f pageIn limitIn).users,
      logsFor db rec.id = [] →
        rec.logCount = 0 ∧ rec.loginCount = 0 ∧ rec.updateCount = 0 ∧
          rec.recentLogs = 0) ∧
    (∀ u ∈ db.users, userMatches db f u = true →
      ∃ r ∈ sortedRows db f, r.u = u) := by
  constructor
  · intro rec hrec hlogs
    have hrec' : rec ∈ (pageRows db f (clampPage pageIn) (clampLimit limitIn)).map
        (project db cutoff) := hrec
    obtain ⟨r, _, rfl⟩ := List.mem_map.1 hrec'
    have hid : logsFor db r.u.id = [] := hlogs
    refine ⟨?_, ?_, ?_, ?_⟩
    · show (logsFor db r.u.id).length = 0
      rw [hid]
      rfl
    · show ((logsFor db r.u.id).filter (fun l => l.action == "login")).length = 0
      rw [hid]
      rfl
    · show ((logsFor db r.u.id).filter (fun l => l.action == "update_profile")).length = 0
      rw [hid]
      rfl
    · show ((logsFor db r.u.id).filter (fun l => cutoff < l.created_at)).length = 0
      rw [hid]
      rfl
  · intro u hu hm
    refine ⟨rowOf db u, ?_, rfl⟩
    have hj : rowOf db u ∈ joinedRows db := by
      unfold joinedRows
      rw [List.mem_flatMap]
      refine ⟨u, hu, ?_⟩
      rw [List.mem_flatMap]
      refine ⟨(authFor db u).head?, head?_mem_leftJoinOpt _, ?_⟩
      rw [List.mem_flatMap]
      refine ⟨(rolesFor db u.id).head?, head?_mem_leftJoinOpt _, ?_⟩
      rw [List.mem_map]
      exact ⟨(divsFor db u.id).head?, head?_mem_leftJoinOpt _, rfl⟩
    show rowOf db u ∈ List.insertionSort createdDesc (filteredRows db f)
    rw [List.mem_insertionSort]
    unfold filteredRows
    rw [List.mem_filter]
    exact ⟨hj, hm⟩

/-- C3 witness: the zero-log profile `3` of `dbThree` appears with all
four aggregates equal to `0`. -/
theorem C3_witness :
    ((project dbThree 0 rowThree3).logCount = 0 ∧
      (project dbThree 0 rowThree3).loginCount = 0 ∧
      (project dbThree 0 rowThree3).updateCount = 0 ∧
      (project dbThree 0 rowThree3).recentLogs = 0) ∧
    ∃ r ∈ sortedRows dbThree none, r.u = mkUser 3 30 := by
  constructor
  · exact (C3_zero_log_profiles dbThree 0 none 1 50).1 (project dbThree 0 rowThree3)
      (by decide) (by decide)
  · exact (C3_zero_log_profiles dbThree 0 none 1 50).2 (mkUser 3 30) (by decide)
      (by decide)

/-- C4: on a store with two profiles sharing one creation timestamp, the
window-function rank (`COUNT(*) OVER (ORDER BY created_at DESC) - 1`,
peers included under the default `RANGE` frame) returns `1` for *both*
returned records, while the number of strictly newer profiles is `0` for
both — so no returned record has rank `0` and the claimed "strictly
newer" semantics (the pre-optimization per-row subquery) is violated on
ties. -/
theorem C4_tied_rank_behavior :
    (GET dbTies 0 none 1 50).users.map Record.newerUsers = [1, 1] ∧
    dbTies.users.map (strictlyNewerCount dbTies) = [0, 0] ∧
    ¬ ∃ rec ∈ (GET dbTies 0 none 1 50).users, rec.newerUsers = 0 := by
  refine ⟨by decide, by decide, by decide⟩

/-- C1 counterexample: in `dbDup` one single profile (with two
`user_divisions` rows) matches the null filter, yet the page rows contain
it twice and `totalCount = 2 ≠ 1`. -/
theorem C1_counterexample :
    ((GET dbDup 0 none 1 50).users.filter (fun rec => rec.id == 1)).length = 2 ∧
    (GET dbDup 0 none 1 50).pagination.totalCount = 2 ∧
    (dbDup.users.filter (userMatches dbDup none)).length = 1 := by
  refine ⟨by decide, by decide, by decide⟩

/-- C1 (amended): *when the store satisfies the at-most-one invariants*
(unique `auth.id`, at most one role row and one division row per profile,
unique profile ids), every profile appears at most once in the page rows
and `totalCount` equals the number of distinct profiles matching the
filter. -/
theorem C1_amended (db : DB) (cutoff : Nat) (f : Option String) (pageIn limitIn : Int)
    (hau : (db.auth.map AuthRow.id).Nodup)
    (hro : (db.user_roles.map RoleRow.user_id).Nodup)
    (hdv : (db.user_divisions.map DivisionRow.user_id).Nodup)
    (hid : (db.users.map UserRow.id).Nodup) :
    (GET db cutoff f pageIn limitIn).pagination.totalCount =
      (db.users.filter (userMatches db f)).length ∧
    ∀ uid : Nat,
      ((GET db cutoff f pageIn limitIn).users.filter
        (fun rec => rec.id == uid)).length ≤ 1 := by
  constructor
  · exact totalCount_eq_matching db f hdv
  · intro uid
    have h1 : ((GET db cutoff f pageIn limitIn).users.filter
        (fun rec => rec.id == uid)).length
        = List.countP (fun r : RawRow => r.u.id == uid)
            (pageRows db f (clampPage pageIn) (clampLimit limitIn)) := by
      show (((pageRows db f (clampPage pageIn) (clampLimit limitIn)).map
          (project db cutoff)).filter (fun rec => rec.id == uid)).length = _
      rw [← List.countP_eq_length_filter, List.countP_map]
      rfl
    rw [h1]
    have h2 : List.countP (fun r : RawRow => r.u.id == uid)
        (pageRows db f (clampPage pageIn) (clampLimit limitIn))
        ≤ List.countP (fun r : RawRow => r.u.id == uid) (sortedRows db f) :=
      ((List.take_sublist _ _).trans (List.drop_sublist _ _)).countP_le _
    have h3 : List.countP (fun r : RawRow => r.u.id == uid) (sortedRows db f)
        = List.countP (fun r : RawRow => r.u.id == uid) (filteredRows db f) :=
      (sortedRows_perm db f).countP_eq _
    have h4 : List.countP (fun r : RawRow => r.u.id == uid) (filteredRows db f)
        = List.countP (fun u : UserRow => u.id == uid)
            (db.users.filter (userMatches db f)) := by
      rw [filteredRows_eq_map db f hau hro hdv, List.countP_map]
      rfl
    have h5 : List.countP (fun u : UserRow => u.id == uid)
        (db.users.filter (userMatches db f))
        ≤ List.countP (fun u : UserRow => u.id == uid) db.users :=
      (List.filter_sublist _).countP_le _
    have h6 : List.countP (fun u : UserRow => u.id == uid) db.users ≤ 1 := by
      have h := filter_key_length_le_one UserRow.id db.users hid uid
      rwa [← List.countP_eq_length_filter] at h
    omega

/-- C1 amended witness: the well-formed store `dbThree`. -/
theorem C1_amended_witness :
    (GET dbThree 0 none 1 50).pagination.totalCount =
      (dbThree.users.filter (userMatches dbThree none)).length ∧
    ((GET dbThree 0 none 1 50).users.filter (fun rec => rec.id == 1)).length ≤ 1 := by
  have h := C1_amended dbThree 0 none 1 50 (by decide) (by decide) (by decide)
    (by decide)
  exact ⟨h.1, h.2 1⟩

/-- C2 counterexample: with two profiles sharing one creation timestamp,
both orders of the two rows are legitimate results of
`ORDER BY u.created_at DESC` (the SQL text has no secondary tie-break
key), so the code does not determine a unique, repeatable row order. -/
theorem C2_counterexample :
    validQueryResult dbTies none [rowTie1, rowTie2] ∧
    validQueryResult dbTies none [rowTie2, rowTie1] ∧
    [rowTie1, rowTie2] ≠ [rowTie2, rowTie1] := by
  refine ⟨⟨by decide, by decide⟩, ⟨by decide, by decide⟩, by decide⟩

/-- C2 (amended): rows are sorted by creation time descending, but with
no secondary tie-break key; *when the at-most-one invariants hold
(unique `auth.id`, at most one role/division row per profile, unique
profile ids — the key of the `user_creation_rank` join) and creation
times are pairwise distinct*, the compliant ordering is unique (hence
repeated identical requests agree), the concatenation of pages
`1..totalPages` is exactly the full ordered result, and that result
contains every matching profile exactly once (in particular each profile
id occurs at most once).  The unique-profile-id
hypothesis is required for the embedding to be faithful: `project`
recomputes the keyed `user_creation_rank`/`user_aggregates` columns per
user row, while the real `LEFT JOIN ucr ON u.id = ucr.id` would multiply
rows if `users.id` had duplicates. -/
theorem C2_amended (db : DB) (cutoff : Nat) (f : Option String) (limitIn : Int)
    (hau : (db.auth.map AuthRow.id).Nodup)
    (hro : (db.user_roles.map RoleRow.user_id).Nodup)
    (hdv : (db.user_divisions.map DivisionRow.user_id).Nodup)
    (hid : (db.users.map UserRow.id).Nodup)
    (hts : (db.users.map UserRow.created_at).Nodup) :
    List.Sorted createdDesc (sortedRows db f) ∧
    (∀ l : List RawRow, validQueryResult db f l → l = sortedRows db f) ∧
    ((List.range (GET db cutoff f 1 limitIn).pagination.totalPages).flatMap
        fun i => (GET db cutoff f ((i : Int) + 1) limitIn).users)
      = (sortedRows db f).map (project db cutoff) ∧
    ((sortedRows db f).map RawRow.u).Perm (db.users.filter (userMatches db f)) ∧
    (∀ uid : Nat, ((sortedRows db f).filter (fun r => r.u.id == uid)).length ≤ 1) := by
  have hcount : ∀ uid : Nat,
      ((sortedRows db f).filter (fun r => r.u.id == uid)).length ≤ 1 := by
    intro uid
    rw [← List.countP_eq_length_filter]
    have h3 : List.countP (fun r : RawRow => r.u.id == uid) (sortedRows db f)
        = List.countP (fun r : RawRow => r.u.id == uid) (filteredRows db f) :=
      (sortedRows_perm db f).countP_eq _
    have h4 : List.countP (fun r : RawRow => r.u.id == uid) (filteredRows db f)
        = List.countP (fun u : UserRow => u.id == uid)
            (db.users.filter (userMatches db f)) := by
      rw [filteredRows_eq_map db f hau hro hdv, List.countP_map]
      rfl
    have h5 : List.countP (fun u : UserRow => u.id == uid)
        (db.users.filter (userMatches db f))
        ≤ List.countP (fun u : UserRow => u.id == uid) db.users :=
      (List.filter_sublist _).countP_le _
    have h6 : List.countP (fun u : UserRow => u.id == uid) db.users ≤ 1 := by
      have h := filter_key_length_le_one UserRow.id db.users hid uid
      rwa [← List.countP_eq_length_filter] at h
    omega
  have hfk : ((filteredRows db f).map (fun r : RawRow => r.u.created_at)).Nodup := by
    rw [filteredRows_eq_map db f hau hro hdv, List.map_map]
    show ((db.users.filter (userMatches db f)).map UserRow.created_at).Nodup
    exact List.Nodup.sublist ((List.filter_sublist _).map UserRow.created_at) hts
  have hkeys : ((sortedRows db f).map (fun r : RawRow => r.u.created_at)).Nodup :=
    (((sortedRows_perm db f).map _).nodup_iff).2 hfk
  have huniq : ∀ l : List RawRow, validQueryResult db f l → l = sortedRows db f := by
    intro l hl
    apply eq_of_perm_sorted_nodup_keys (fun r : RawRow => r.u.created_at)
    · exact hl.1.trans (sortedRows_perm db f).symm
    · exact hl.2
    · exact sortedRows_sorted db f
    · exact (((hl.1.trans (sortedRows_perm db f).symm).map _).nodup_iff).2 hkeys
  have hperm : ((sortedRows db f).map RawRow.u).Perm
      (db.users.filter (userMatches db f)) := by
    have h1 : ((sortedRows db f).map RawRow.u).Perm ((filteredRows db f).map RawRow.u) :=
      (sortedRows_perm db f).map RawRow.u
    have h2 : (filteredRows db f).map RawRow.u = db.users.filter (userMatches db f) := by
      rw [filteredRows_eq_map db f hau hro hdv, List.map_map]
      exact List.map_id'' (fun _ => rfl) _
    exact h2 ▸ h1
  have hk : 0 < clampLimit limitIn := one_le_clampLimit limitIn
  have hlen : totalCount db f = (sortedRows db f).length := by
    rw [totalCount_eq_matching db f hdv, (sortedRows_perm db f).length_eq,
      filteredRows_eq_map db f hau hro hdv, List.length_map]
  have hunion : ((List.range (GET db cutoff f 1 limitIn).pagination.totalPages).flatMap
      fun i => (GET db cutoff f ((i : Int) + 1) limitIn).users)
      = (sortedRows db f).map (project db cutoff) := by
    have htp : (GET db cutoff f 1 limitIn).pagination.totalPages
        = ceilDiv (sortedRows db f).length (clampLimit limitIn) := by
      show ceilDiv (totalCount db f) (clampLimit limitIn) = _
      rw [hlen]
    rw [htp]
    have hpage : ∀ i : Nat, (GET db cutoff f ((i : Int) + 1) limitIn).users
        = (((sortedRows db f).drop (i * clampLimit limitIn)).take
            (clampLimit limitIn)).map (project db cutoff) := by
      intro i
      show (pageRows db f (clampPage ((i : Int) + 1)) (clampLimit limitIn)).map
          (project db cutoff) = _
      rw [clampPage_of_pos]
      show (((sortedRows db f).drop ((i + 1 - 1) * clampLimit limitIn)).take
          (clampLimit limitIn)).map (project db cutoff) = _
      simp
    simp only [hpage]
    rw [← List.map_flatMap]
    rw [flatMap_range_chunks (clampLimit limitIn) hk (sortedRows db f).length
      (sortedRows db f) rfl]
  exact ⟨sortedRows_sorted db f, huniq, hunion, hperm, hcount⟩

/-- C2 amended witness: `dbThree` with page size 2 (two pages). -/
theorem C2_amended_witness :
    List.Sorted createdDesc (sortedRows dbThree none) ∧
    [rowThree3, rowThree2, rowThree1] = sortedRows dbThree none ∧
    ((List.range (GET dbThree 0 none 1 2).pagination.totalPages).flatMap
        fun i => (GET dbThree 0 none ((i : Int) + 1) 2).users)
      = (sortedRows dbThree none).map (project dbThree 0) ∧
    ((sortedRows dbThree none).map RawRow.u).Perm
      (dbThree.users.filter (userMatches dbThree none)) ∧
    ((sortedRows dbThree none).filter (fun r => r.u.id == 1)).length ≤ 1 := by
  have h := C2_amended dbThree 0 none 2 (by decide) (by decide) (by decide) (by decide)
    (by decide)
  exact ⟨h.1, h.2.1 [rowThree3, rowThree2, rowThree1] ⟨by decide, by decide⟩,
    h.2.2.1, h.2.2.2.1, h.2.2.2.2 1⟩

end BinarWshop
